import Mathlib

/-!
Shallow embedding of the digital media library (`src/media.py`,
`src/content_types.py`, `src/library.py`).

Modelling conventions:
- Python `str` is Lean `String`; `str.lower`, `str.strip`, substring `in`
  and `str.replace(' ', '-')` are embedded as character-list operations
  (`pyLower`, `pyStrip`, `pyIsSubstr`, `pyReplaceSpaceDash`).
- Python `float` values that carry ratings / money are embedded as `ℚ`
  (exact arithmetic); `datetime` instants are embedded as integers counted
  in days, so `timedelta(days=d)` is just `d` and `datetime.now()` is an
  explicit `now` parameter.
- Python object identity is embedded as an `oid : Nat` field: `MediaContent`
  defines no `__eq__`, so `x == y`, `in` and `list.remove` compare by
  identity, i.e. by `oid` here.
- `raise ValueError(...)` / `NameError` become `Except PyError`;
  a raising call mutates nothing, which the pure embedding reflects by
  returning no updated value in the `.error` case.
-/

set_option maxHeartbeats 1000000

namespace MediaLib

/-- Python `str.lower()` (ASCII model, per-character). -/
def pyLower (s : String) : String := ⟨s.data.map Char.toLower⟩

/-- Python `str.strip()`: drop whitespace on both ends. -/
def pyStrip (s : String) : String :=
  ⟨((s.data.dropWhile Char.isWhitespace).reverse.dropWhile Char.isWhitespace).reverse⟩

/-- Starts-with test on character lists. -/
def charsStartWith : List Char → List Char → Bool
  | [], _ => true
  | _ :: _, [] => false
  | a :: as, b :: bs => a == b && charsStartWith as bs

/-- Contiguous-substring test on character lists. -/
def charsContain (needle : List Char) : List Char → Bool
  | [] => needle.isEmpty
  | b :: bs => charsStartWith needle (b :: bs) || charsContain needle bs

/-- Python `needle in hay` on strings: contiguous substring test. -/
def pyIsSubstr (needle hay : String) : Bool := charsContain needle.data hay.data

/-- Python `s.replace(' ', '-')` (single-character pattern, so a map). -/
def pyReplaceSpaceDash (s : String) : String :=
  ⟨s.data.map (fun c => if c = ' ' then '-' else c)⟩

/-- The exceptions the source raises: `ValueError` everywhere it validates,
plus `NameError` for the unbound name in `get_recently_added`. -/
inductive PyError where
  | valueError (msg : String)
  | nameError (msg : String)
deriving DecidableEq

/-- `MediaType` enum from `media.py`. -/
inductive MediaType where
  | movie
  | tv_show
  | music
  | podcast
deriving DecidableEq

/-- `ContentRating` enum from `media.py`. -/
inductive ContentRating where
  | G
  | PG
  | PG_13
  | R
  | NC_17
  | UNRATED
deriving DecidableEq

/-- State of a `MediaContent` object (`media.py`). `oid` models Python
object identity; `kind` models the object's dynamic class, i.e. the value
`get_media_type()` returns. -/
structure MediaContent where
  oid : Nat
  title : String
  duration_minutes : Int
  release_date : Int
  content_rating : ContentRating
  genres : List String
  description : String
  view_count : Nat
  average_rating : ℚ
  ratings : List ℚ
  created_at : Int
  kind : MediaType
deriving DecidableEq

/-- `MediaContent.__init__`: validates title (non-empty string, checked
before stripping), duration (> 0), genres (non-empty list), then stores
trimmed title/description and normalized (trimmed, lowercased) genres. -/
def MediaContent.init (oid : Nat) (now : Int) (kind : MediaType)
    (title : String) (duration_minutes : Int) (release_date : Int)
    (content_rating : ContentRating) (genres : List String)
    (description : String) : Except PyError MediaContent :=
  if title = "" then
    .error (.valueError "Title must be a non-empty string")
  else if duration_minutes ≤ 0 then
    .error (.valueError "Duration must be a positive integer")
  else if genres = [] then
    .error (.valueError "Genres must be a non-empty list")
  else
    .ok {
      oid, kind
      title := pyStrip title
      duration_minutes, release_date, content_rating
      genres := genres.map (fun g => pyLower (pyStrip g))
      description := pyStrip description
      view_count := 0
      average_rating := 0
      ratings := []
      created_at := now }

/-- `MediaContent.add_view`. -/
def MediaContent.add_view (c : MediaContent) : MediaContent :=
  { c with view_count := c.view_count + 1 }

/-- `MediaContent.add_rating`: rejects a value outside `[1.0, 5.0]`,
otherwise appends it and recomputes the average as `sum / len`. -/
def MediaContent.add_rating (c : MediaContent) (rating : ℚ) :
    Except PyError MediaContent :=
  if 1 ≤ rating ∧ rating ≤ 5 then
    let ratings := c.ratings ++ [rating]
    .ok { c with ratings := ratings
                 average_rating := ratings.sum / (ratings.length : ℚ) }
  else
    .error (.valueError "Rating must be between 1.0 and 5.0")

/-- `MediaContent.matches_genre`: `genre.lower().strip() in self._genres`. -/
def MediaContent.matches_genre (c : MediaContent) (genre : String) : Bool :=
  c.genres.contains (pyStrip (pyLower genre))

/-- `MediaContent.is_recently_released`: release date at or after
`now - days`. -/
def MediaContent.is_recently_released (c : MediaContent) (now days : Int) :
    Bool :=
  decide (now - days ≤ c.release_date)

/-- `MediaContent.matches_search`: lowercased, trimmed query as a substring
of the title, the description, or any stored genre. -/
def MediaContent.matches_search (c : MediaContent) (query : String) : Bool :=
  let q := pyStrip (pyLower query)
  pyIsSubstr q (pyLower c.title) || pyIsSubstr q (pyLower c.description) ||
    c.genres.any (fun g => pyIsSubstr q g)

/-- State of a `Movie` object (`content_types.py`): the inherited
`MediaContent` state plus movie-specific fields. `Movie.init` always sets
`base.kind = .movie`. -/
structure Movie where
  base : MediaContent
  director : String
  cast : List String
  budget : Option ℚ
  box_office : Option ℚ
deriving DecidableEq

/-- `Movie.__init__`: runs the base constructor first, then validates the
director (non-empty string); list entries of `cast` are stripped and the
ones that strip to the empty string are dropped. -/
def Movie.init (oid : Nat) (now : Int) (title : String)
    (duration_minutes : Int) (release_date : Int)
    (content_rating : ContentRating) (genres : List String)
    (description : String) (director : String) (cast : List String)
    (budget : Option ℚ) (box_office : Option ℚ) : Except PyError Movie := do
  let base ← MediaContent.init oid now .movie title duration_minutes
    release_date content_rating genres description
  if director = "" then
    .error (.valueError "Director must be a non-empty string")
  else
    .ok {
      base
      director := pyStrip director
      cast := (cast.map pyStrip).filter (fun a => a != "")
      budget, box_office }

/-- `Movie.can_stream`: streamable iff not released within the last 90
days. -/
def Movie.can_stream (m : Movie) (now : Int) : Bool :=
  ! m.base.is_recently_released now 90

/-- `Movie.get_streaming_url`: raises while `can_stream` is false,
otherwise a slug URL from the lowercased title with spaces dashed. -/
def Movie.get_streaming_url (m : Movie) (now : Int) : Except PyError String :=
  if m.can_stream now then
    .ok ("https://stream.example.com/movies/" ++
      pyReplaceSpaceDash (pyLower m.base.title))
  else
    .error (.valueError "Movie not available for streaming yet")

/-- `Movie._is_blockbuster`: `if self._budget and self._box_office` uses
Python truthiness, so `None` and `0.0` both fail the guard. -/
def Movie.is_blockbuster (m : Movie) : Bool :=
  match m.budget, m.box_office with
  | some b, some bo => b != 0 && bo != 0 && decide (bo > b * 3)
  | _, _ => false

/-- The dictionary `Movie.get_metadata` returns, as a record. -/
structure MovieMetadata where
  type : MediaType
  director : String
  cast : List String
  budget : Option ℚ
  box_office : Option ℚ
  is_blockbuster : Bool
deriving DecidableEq

/-- `Movie.get_metadata`. -/
def Movie.get_metadata (m : Movie) : MovieMetadata := {
  type := .movie
  director := m.director
  cast := m.cast
  budget := m.budget
  box_office := m.box_office
  is_blockbuster := m.is_blockbuster }

/-- Truthiness of an optional float (`None` and `0.0` are falsy). -/
def ratTruthy : Option ℚ → Bool
  | none => false
  | some q => q != 0

/-- Truthiness of an optional int (`None` and `0` are falsy). -/
def intTruthy : Option Int → Bool
  | none => false
  | some n => n != 0

/-- State of a `SearchFilter` (`library.py`). The Python sets are embedded
as lists; only membership and emptiness are consulted. -/
structure SearchFilter where
  genres : List String
  media_types : List MediaType
  content_ratings : List ContentRating
  min_rating : Option ℚ
  max_duration : Option Int
  recently_released_days : Option Int

/-- `SearchFilter.__init__`: everything unset. -/
def SearchFilter.empty : SearchFilter :=
  ⟨[], [], [], none, none, none⟩

/-- `SearchFilter.set_rating_filter`: validates the bound then stores it. -/
def SearchFilter.set_rating_filter (f : SearchFilter) (min_rating : ℚ) :
    Except PyError SearchFilter :=
  if 1 ≤ min_rating ∧ min_rating ≤ 5 then
    .ok { f with min_rating := some min_rating }
  else
    .error (.valueError "Rating must be between 1.0 and 5.0")

/-- `SearchFilter.matches`: the source short-circuits on the first failing
configured predicate; each guard tests Python truthiness of the field. -/
def SearchFilter.matches (f : SearchFilter) (now : Int) (c : MediaContent) :
    Bool :=
  if !f.genres.isEmpty && !(f.genres.any (fun g => c.matches_genre g)) then
    false
  else if !f.media_types.isEmpty && !(f.media_types.contains c.kind) then
    false
  else if !f.content_ratings.isEmpty
      && !(f.content_ratings.contains c.content_rating) then
    false
  else if ratTruthy f.min_rating
      && decide (c.average_rating < f.min_rating.getD 0) then
    false
  else if intTruthy f.max_duration
      && decide (f.max_duration.getD 0 < c.duration_minutes) then
    false
  else if intTruthy f.recently_released_days
      && !(c.is_recently_released now (f.recently_released_days.getD 0)) then
    false
  else
    true

/-- State of a `MediaLibrary` (`library.py`): the primary ordered
collection and the kind index (`_content_by_type`), embedded as a function
from kind to list. -/
structure MediaLibrary where
  name : String
  content : List MediaContent
  content_by_type : MediaType → List MediaContent
  created_at : Int

/-- `MediaLibrary.__init__`: empty collection, one empty index entry per
media type. -/
def MediaLibrary.init (name : String) (now : Int) : MediaLibrary :=
  { name, content := [], content_by_type := fun _ => [], created_at := now }

/-- `MediaLibrary.total_content`. -/
def MediaLibrary.total_content (lib : MediaLibrary) : Nat :=
  lib.content.length

/-- `MediaLibrary.add_content`: `content in self._content` compares by
object identity (`MediaContent` defines no `__eq__`), i.e. by `oid`; on
success appends to the primary collection and to the kind index entry. -/
def MediaLibrary.add_content (lib : MediaLibrary) (c : MediaContent) :
    Except PyError MediaLibrary :=
  if lib.content.any (fun x => x.oid == c.oid) then
    .error (.valueError ("Content " ++ c.title ++ " already exists in library"))
  else
    .ok { lib with
      content := lib.content ++ [c]
      content_by_type := fun k =>
        if k = c.kind then lib.content_by_type k ++ [c]
        else lib.content_by_type k }

/-- `MediaLibrary.remove_content`: finds the first case-insensitive title
match; `list.remove` then deletes that object (first identity match) from
the primary collection and from its kind index entry. Returns whether a
removal occurred. -/
def MediaLibrary.remove_content (lib : MediaLibrary) (title : String) :
    Bool × MediaLibrary :=
  match lib.content.find? (fun c => pyLower c.title == pyLower title) with
  | some c =>
    (true, { lib with
      content := lib.content.eraseP (fun x => x.oid == c.oid)
      content_by_type := fun k =>
        if k = c.kind then
          (lib.content_by_type k).eraseP (fun x => x.oid == c.oid)
        else lib.content_by_type k })
  | none => (false, lib)

/-- `MediaLibrary.get_content_by_type` (returns a copy; copying is the
identity here). -/
def MediaLibrary.get_content_by_type (lib : MediaLibrary) (k : MediaType) :
    List MediaContent :=
  lib.content_by_type k

/-- The `for content in self._content` loop of `MediaLibrary.search`:
skip on a truthy non-matching query, skip on a present non-matching
filter, otherwise append to the results accumulator. -/
def searchLoop (now : Int) (query : String) (filters : Option SearchFilter) :
    List MediaContent → List MediaContent → List MediaContent
  | [], results => results
  | c :: rest, results =>
    if query != "" && !(c.matches_search query) then
      searchLoop now query filters rest results
    else if (match filters with
             | some f => !(f.matches now c)
             | none => false) then
      searchLoop now query filters rest results
    else
      searchLoop now query filters rest (results ++ [c])

/-- `MediaLibrary.search`. -/
def MediaLibrary.search (lib : MediaLibrary) (now : Int) (query : String)
    (filters : Option SearchFilter) : List MediaContent :=
  searchLoop now query filters lib.content []

/-- Stable descending insertion by a rational key: the new element goes in
front of the first strictly smaller key, after equal keys already placed. -/
def insertDescBy (key : α → ℚ) (x : α) : List α → List α
  | [] => [x]
  | y :: ys =>
    if key y ≤ key x then x :: y :: ys else y :: insertDescBy key x ys

/-- Model of CPython `sorted(xs, key=key, reverse=True)`: a stable
descending sort (CPython's sort is stable, and `reverse=True` does not
reorder equal keys). -/
def pySortedDescBy (key : α → ℚ) : List α → List α
  | [] => []
  | a :: l => insertDescBy key a (pySortedDescBy key l)

/-- `MediaLibrary.get_top_rated`: keep the records with a positive
average, sort stably by average descending, truncate. -/
def MediaLibrary.get_top_rated (lib : MediaLibrary) (limit : Nat) :
    List MediaContent :=
  (pySortedDescBy (fun c => c.average_rating)
    (lib.content.filter (fun c => decide (0 < c.average_rating)))).take limit

/-- `MediaLibrary.get_recently_added`: `library.py` imports only
`datetime` from the `datetime` module (and nothing binds `timedelta`), so
the first line of the body, `cutoff = datetime.now() - timedelta(days=days)`,
raises `NameError` before anything is computed. -/
def MediaLibrary.get_recently_added (_lib : MediaLibrary) (_days : Int) :
    Except PyError (List MediaContent) :=
  .error (.nameError "name timedelta is not defined")

/-- A library mutation: the two operations that move records between
absent and present. -/
inductive LibOp where
  | add (c : MediaContent)
  | remove (title : String)

/-- Run one operation; a raising `add_content` leaves the state unchanged
(the exception propagates to the caller before any mutation). -/
def MediaLibrary.applyOp (lib : MediaLibrary) : LibOp → MediaLibrary
  | .add c =>
    match lib.add_content c with
    | .ok lib2 => lib2
    | .error _ => lib
  | .remove t => (lib.remove_content t).2

/-- Run a sequence of operations from a given state. -/
def MediaLibrary.runOps (lib : MediaLibrary) (ops : List LibOp) :
    MediaLibrary :=
  ops.foldl MediaLibrary.applyOp lib

instance {ε α : Type} [DecidableEq ε] [DecidableEq α] :
    DecidableEq (Except ε α) := fun a b =>
  match a, b with
  | .ok x, .ok y =>
    if h : x = y then isTrue (by rw [h])
    else isFalse (by intro hh; injection hh; contradiction)
  | .error x, .error y =>
    if h : x = y then isTrue (by rw [h])
    else isFalse (by intro hh; injection hh; contradiction)
  | .ok _, .error _ => isFalse (by intro hh; injection hh)
  | .error _, .ok _ => isFalse (by intro hh; injection hh)

/-! Concrete states used by witnesses and counterexamples. -/

/-- A plain record as produced by `MediaContent.init 1 0 .movie "A" 100 0 G
["g"] ""`, with no views and no ratings yet. -/
def rec0 : MediaContent := {
  oid := 1
  title := "A"
  duration_minutes := 100
  release_date := 0
  content_rating := .G
  genres := ["g"]
  description := ""
  view_count := 0
  average_rating := 0
  ratings := []
  created_at := 0
  kind := .movie }

/-- First of two structurally identical records that differ only in
object identity. -/
def recSame1 : MediaContent := { rec0 with oid := 1, title := "Same" }

/-- Second of the pair: same title (same every field), different object. -/
def recSame2 : MediaContent := { rec0 with oid := 2, title := "Same" }

/-- Library already holding `recSame1`, as built by `add_content`. -/
def oneLib : MediaLibrary := {
  name := "L"
  content := [recSame1]
  content_by_type := fun k => if k = .movie then [recSame1] else []
  created_at := 0 }

/-- Adding two same-titled but distinct records to a fresh library. -/
def sameTitleAdd : Except PyError MediaLibrary :=
  (MediaLibrary.init "L" 0).add_content recSame1 >>= fun l =>
    l.add_content recSame2

/-- C1: the claim predicts a Conflict on the second add of a same-titled
record; the code compares by object identity, so both adds succeed and
`total_content` becomes 2. -/
theorem add_content_same_title_no_conflict :
    recSame1.title = recSame2.title ∧
    sameTitleAdd.map MediaLibrary.total_content = .ok 2 := by
  exact ⟨rfl, rfl⟩

/-- C1 (amended): `add_content` raises Conflict exactly when the identical
object (same identity, i.e. same `oid`) is already owned — `MediaContent`
defines no structural equality, so `in` compares by identity. The raising
branch returns no new state, so the library is unchanged. A distinct
record is always appended, same title or not, and `total_content` grows
by one; in particular two distinct adds give `total_content = 2`. -/
theorem add_content_identity_conflict (lib : MediaLibrary)
    (c : MediaContent) :
    ((∃ x ∈ lib.content, x.oid = c.oid) →
      lib.add_content c =
        .error (.valueError
          ("Content " ++ c.title ++ " already exists in library"))) ∧
    ((∀ x ∈ lib.content, x.oid ≠ c.oid) →
      ∃ lib2, lib.add_content c = .ok lib2 ∧
        lib2.content = lib.content ++ [c] ∧
        lib2.total_content = lib.total_content + 1 ∧
        (∀ k, lib2.content_by_type k =
          if k = c.kind then lib.content_by_type k ++ [c]
          else lib.content_by_type k)) := by
  constructor
  · rintro ⟨x, hx, he⟩
    have hany : lib.content.any (fun x => x.oid == c.oid) = true :=
      List.any_eq_true.2 ⟨x, hx, by simp [he]⟩
    simp [MediaLibrary.add_content, hany]
  · intro hx
    have hany : lib.content.any (fun x => x.oid == c.oid) = false := by
      simp only [List.any_eq_false]
      intro x hmem
      simp [hx x hmem]
    refine ⟨{ lib with
        content := lib.content ++ [c]
        content_by_type := fun k =>
          if k = c.kind then lib.content_by_type k ++ [c]
          else lib.content_by_type k }, ?_, rfl, ?_, fun k => rfl⟩
    · simp [MediaLibrary.add_content, hany]
    · simp [MediaLibrary.total_content]

/-- Witness for C1's theorem at `oneLib`: re-adding the already-present
object fails, while adding the structurally equal but distinct
`recSame2` succeeds. -/
theorem add_content_identity_conflict_witness :
    oneLib.add_content recSame1 =
      .error (.valueError
        ("Content " ++ recSame1.title ++ " already exists in library")) ∧
    (∃ lib2, oneLib.add_content recSame2 = .ok lib2 ∧
      lib2.content = oneLib.content ++ [recSame2] ∧
      lib2.total_content = oneLib.total_content + 1 ∧
      (∀ k, lib2.content_by_type k =
        if k = recSame2.kind then oneLib.content_by_type k ++ [recSame2]
        else oneLib.content_by_type k)) :=
  ⟨(add_content_identity_conflict oneLib recSame1).1
      ⟨recSame1, by simp [oneLib], rfl⟩,
    (add_content_identity_conflict oneLib recSame2).2 (by decide)⟩

/-- C3: `add_rating` rejects values outside `[1.0, 5.0]` (and, raising,
returns no changed record, so history and average are untouched);
in range, it appends the value and sets the average to the exact mean of
the ratings recorded so far. -/
theorem add_rating_spec (c : MediaContent) (r : ℚ) :
    (¬(1 ≤ r ∧ r ≤ 5) →
      c.add_rating r =
        .error (.valueError "Rating must be between 1.0 and 5.0")) ∧
    (1 ≤ r → r ≤ 5 →
      ∃ c2, c.add_rating r = .ok c2 ∧
        c2.ratings = c.ratings ++ [r] ∧
        c2.average_rating =
          (c.ratings ++ [r]).sum / ((c.ratings.length + 1 : ℕ) : ℚ) ∧
        c2.title = c.title ∧ c2.view_count = c.view_count) := by
  constructor
  · intro h
    simp [MediaContent.add_rating, h]
  · intro h1 h5
    refine ⟨{ c with
        ratings := c.ratings ++ [r]
        average_rating :=
          (c.ratings ++ [r]).sum / (((c.ratings ++ [r]).length : ℕ) : ℚ) },
      ?_, rfl, ?_, rfl, rfl⟩
    · simp [MediaContent.add_rating, h1, h5]
    · simp

/-- Witness for C3's theorem at `rec0`, with the out-of-range value 6 and
the in-range value 4. -/
theorem add_rating_spec_witness :
    rec0.add_rating 6 =
      .error (.valueError "Rating must be between 1.0 and 5.0") ∧
    (∃ c2, rec0.add_rating 4 = .ok c2 ∧
      c2.ratings = rec0.ratings ++ [4] ∧
      c2.average_rating =
        (rec0.ratings ++ [(4 : ℚ)]).sum / ((rec0.ratings.length + 1 : ℕ) : ℚ) ∧
      c2.title = rec0.title ∧ c2.view_count = rec0.view_count) :=
  ⟨(add_rating_spec rec0 6).1 (by norm_num),
    (add_rating_spec rec0 4).2 (by norm_num) (by norm_num)⟩

/-- A movie with a two-word title released at instant 0. -/
def demoMovie : Movie := {
  base := { rec0 with title := "The Matrix" }
  director := "Lana"
  cast := []
  budget := none
  box_office := none }

/-- C4: a movie cannot stream exactly while its release date is within 90
days of now (`is_recently_released(90)`), and `get_streaming_url` raises
NotAvailable exactly when `can_stream` is false, otherwise returning the
deterministic slug URL built from the title. -/
theorem movie_streaming_gate (m : Movie) (now : Int) :
    (m.can_stream now = !(m.base.is_recently_released now 90)) ∧
    (m.can_stream now = false ↔ now - 90 ≤ m.base.release_date) ∧
    (m.can_stream now = false →
      m.get_streaming_url now =
        .error (.valueError "Movie not available for streaming yet")) ∧
    (m.can_stream now = true →
      m.get_streaming_url now =
        .ok ("https://stream.example.com/movies/" ++
          pyReplaceSpaceDash (pyLower m.base.title))) := by
  refine ⟨rfl, ?_, ?_, ?_⟩
  · simp [Movie.can_stream, MediaContent.is_recently_released]
  · intro h
    simp [Movie.get_streaming_url, h]
  · intro h
    simp [Movie.get_streaming_url, h]

/-- Witness for C4's theorem at `demoMovie` (released at 0): gated at
`now = 50`, streamable with the slug URL at `now = 200`. -/
theorem movie_streaming_gate_witness :
    demoMovie.get_streaming_url 50 =
      .error (.valueError "Movie not available for streaming yet") ∧
    demoMovie.get_streaming_url 200 =
      .ok ("https://stream.example.com/movies/" ++
        pyReplaceSpaceDash (pyLower demoMovie.base.title)) ∧
    pyReplaceSpaceDash (pyLower demoMovie.base.title) = "the-matrix" :=
  ⟨(movie_streaming_gate demoMovie 50).2.2.1 (by decide),
    (movie_streaming_gate demoMovie 200).2.2.2 (by decide),
    by decide⟩

/-- A `Movie` construction whose title is a single space: `not title` is
false for a non-empty string, so validation passes before trimming. -/
def wsMovie : Except PyError Movie :=
  Movie.init 1 0 " " 100 0 .G ["g"] "d" "Dir" [] none none

/-- C6: the claim predicts construction fails whenever the title is empty
after trimming; the code checks emptiness before stripping, so the
whitespace-only title " " is accepted and the stored title is the empty
string. -/
theorem title_whitespace_cex :
    pyStrip " " = "" ∧ wsMovie.map (fun m => m.base.title) = .ok "" := by
  exact ⟨rfl, rfl⟩

/-- C6 (amended): construction raises InvalidArgument exactly when the
given title is the empty string — the check precedes trimming, so a
whitespace-only title is accepted and then stored as the empty string;
otherwise the stored title is the trimmed input; and no operation
(`add_rating`, `add_view`) ever changes the title. -/
theorem title_validation (oid : Nat) (now : Int) (kind : MediaType)
    (title : String) (dur rel : Int) (cr : ContentRating)
    (genres : List String) (desc : String) :
    (title = "" →
      MediaContent.init oid now kind title dur rel cr genres desc =
        .error (.valueError "Title must be a non-empty string")) ∧
    (title ≠ "" → 0 < dur → genres ≠ [] →
      ∃ c, MediaContent.init oid now kind title dur rel cr genres desc =
        .ok c ∧ c.title = pyStrip title) ∧
    (∀ c : MediaContent, ∀ r : ℚ, ∀ c2,
      c.add_rating r = .ok c2 → c2.title = c.title) ∧
    (∀ c : MediaContent, c.add_view.title = c.title) := by
  refine ⟨?_, ?_, ?_, fun c => rfl⟩
  · intro h
    simp [MediaContent.init, h]
  · intro h1 h2 h3
    have hd : ¬ dur ≤ 0 := not_le.mpr h2
    exact ⟨{ oid, kind
             title := pyStrip title
             duration_minutes := dur
             release_date := rel
             content_rating := cr
             genres := genres.map (fun g => pyLower (pyStrip g))
             description := pyStrip desc
             view_count := 0
             average_rating := 0
             ratings := []
             created_at := now },
      by simp [MediaContent.init, h1, hd, h3], rfl⟩
  · intro c r c2 h
    unfold MediaContent.add_rating at h
    split at h
    · injection h with h
      rw [← h]
    · exact Except.noConfusion h

/-- Witness for C6's amended theorem: the empty title is rejected; the
whitespace-only title " " is accepted with stored title `pyStrip " "`. -/
theorem title_validation_witness :
    MediaContent.init 1 0 .movie "" 100 0 .G ["g"] "d" =
      .error (.valueError "Title must be a non-empty string") ∧
    (∃ c, MediaContent.init 1 0 .movie " " 100 0 .G ["g"] "d" = .ok c ∧
      c.title = pyStrip " ") :=
  ⟨(title_validation 1 0 .movie "" 100 0 .G ["g"] "d").1 rfl,
    (title_validation 1 0 .movie " " 100 0 .G ["g"] "d").2.1
      (by decide) (by decide) (by decide)⟩

/-- Movie whose budget is present but `0.0`: truthy-falsy in Python. -/
def zeroBudgetMovie : Movie :=
  { demoMovie with budget := some 0, box_office := some 1 }

/-- C9: the claim predicts the blockbuster flag is true whenever budget
and box office are both present (non-None) and box_office > 3 × budget;
with `budget = 0.0` and `box_office = 1.0` both are present and
1 > 3 × 0, yet the truthiness guard `if self._budget and self._box_office`
fails on `0.0`, so the flag is false. -/
theorem blockbuster_zero_budget_cex :
    zeroBudgetMovie.budget = some 0 ∧ zeroBudgetMovie.box_office = some 1 ∧
    (0 : ℚ) * 3 < 1 ∧
    (zeroBudgetMovie.get_metadata).is_blockbuster = false := by
  refine ⟨rfl, rfl, by norm_num, rfl⟩

/-- C9 (amended): the `is_blockbuster` flag in `get_metadata` is true iff
budget and box_office are both present and both nonzero (Python treats
`0.0` as falsy) and box_office > 3 × budget; it is false when either is
absent — or zero. -/
theorem blockbuster_flag (m : Movie) :
    ((m.get_metadata).is_blockbuster = true ↔
      ∃ b bo, m.budget = some b ∧ m.box_office = some bo ∧
        b ≠ 0 ∧ bo ≠ 0 ∧ b * 3 < bo) ∧
    (m.budget = none ∨ m.box_office = none →
      (m.get_metadata).is_blockbuster = false) := by
  constructor
  · rcases hb : m.budget with _ | b <;> rcases ho : m.box_office with _ | bo <;>
      simp [Movie.get_metadata, Movie.is_blockbuster, hb, ho, and_assoc]
  · intro h
    rcases h with h | h
    · simp [Movie.get_metadata, Movie.is_blockbuster, h]
    · cases hb : m.budget <;>
        simp [Movie.get_metadata, Movie.is_blockbuster, h, hb]

/-- Witness for C9's amended theorem: both optional fields absent on
`demoMovie`, so the flag is false. -/
theorem blockbuster_flag_witness :
    (demoMovie.get_metadata).is_blockbuster = false :=
  (blockbuster_flag demoMovie).2 (Or.inl rfl)

/-- The comprehension `[actor.strip() for actor in cast if actor.strip()]`
as a `filterMap`. -/
lemma map_strip_filter_eq_filterMap (cast : List String) :
    (cast.map pyStrip).filter (fun a => a != "") =
      cast.filterMap
        (fun a => if pyStrip a = "" then none else some (pyStrip a)) := by
  induction cast with
  | nil => rfl
  | cons a l ih =>
    by_cases h : pyStrip a = ""
    · simp [h, ih]
    · simp [h, ih]

/-- C10: an otherwise-valid `Movie` construction succeeds even when the
cast list holds empty or whitespace-only strings; the stored cast is
exactly the trimmed non-empty entries in their original order. -/
theorem movie_cast_normalization (oid : Nat) (now : Int) (title : String)
    (dur rel : Int) (cr : ContentRating) (genres : List String)
    (desc director : String) (cast : List String) (budget box : Option ℚ) :
    title ≠ "" → 0 < dur → genres ≠ [] → director ≠ "" →
    ∃ m, Movie.init oid now title dur rel cr genres desc director cast
        budget box = .ok m ∧
      m.cast = cast.filterMap
        (fun a => if pyStrip a = "" then none else some (pyStrip a)) := by
  intro h1 h2 h3 h4
  have hd : ¬ dur ≤ 0 := not_le.mpr h2
  refine ⟨{ base := { oid, kind := .movie
                      title := pyStrip title
                      duration_minutes := dur
                      release_date := rel
                      content_rating := cr
                      genres := genres.map (fun g => pyLower (pyStrip g))
                      description := pyStrip desc
                      view_count := 0
                      average_rating := 0
                      ratings := []
                      created_at := now }
            director := pyStrip director
            cast := (cast.map pyStrip).filter (fun a => a != "")
            budget := budget
            box_office := box },
    ?_, map_strip_filter_eq_filterMap cast⟩
  simp [Movie.init, MediaContent.init, h1, hd, h3, h4, Bind.bind, Except.bind]

/-- Witness for C10's theorem: blank and whitespace-only cast entries are
silently dropped and the rest trimmed, in order. -/
theorem movie_cast_normalization_witness :
    (∃ m, Movie.init 1 0 "T" 100 0 .G ["g"] "d" "Dir"
        ["  Alice ", "  ", "", "Bob"] none none = .ok m ∧
      m.cast = ["  Alice ", "  ", "", "Bob"].filterMap
        (fun a => if pyStrip a = "" then none else some (pyStrip a))) ∧
    ["  Alice ", "  ", "", "Bob"].filterMap
        (fun a => if pyStrip a = "" then none else some (pyStrip a)) =
      ["Alice", "Bob"] :=
  ⟨movie_cast_normalization 1 0 "T" 100 0 .G ["g"] "d" "Dir"
      ["  Alice ", "  ", "", "Bob"] none none
      (by decide) (by decide) (by decide) (by decide),
    by decide⟩

/-- C8: `get_recently_added` on a valid non-empty library does not return
the recent records — it raises `NameError`, because `library.py` never
imports `timedelta` (line 6 imports only `datetime` from the `datetime`
module), and the body's first line references it. -/
theorem get_recently_added_name_error :
    oneLib.total_content = 1 ∧
    oneLib.get_recently_added 7 =
      .error (.nameError "name timedelta is not defined") := by
  exact ⟨rfl, rfl⟩

/-- The search loop with no filter object accumulates exactly the records
passing the text predicate, in order. -/
lemma searchLoop_none_eq (now : Int) (q : String)
    (l acc : List MediaContent) :
    searchLoop now q none l acc =
      acc ++ l.filter (fun c => q == "" || c.matches_search q) := by
  induction l generalizing acc with
  | nil => simp [searchLoop]
  | cons c rest ih =>
    simp only [searchLoop]
    cases hq : (q == "") <;> cases hm : c.matches_search q <;>
      simp [bne, hq, hm, ih, List.filter_cons]

/-- The search loop with a filter object accumulates exactly the records
passing the text predicate and the filter, in order. -/
lemma searchLoop_some_eq (now : Int) (q : String) (fl : SearchFilter)
    (l acc : List MediaContent) :
    searchLoop now q (some fl) l acc =
      acc ++ l.filter (fun c =>
        (q == "" || c.matches_search q) && fl.matches now c) := by
  induction l generalizing acc with
  | nil => simp [searchLoop]
  | cons c rest ih =>
    simp only [searchLoop]
    cases hq : (q == "") <;> cases hm : c.matches_search q <;>
      simp [bne, hq, hm, ih, List.filter_cons] <;>
        split <;> simp_all

/-- The filter built by `SearchFilter().set_rating_filter(4.0)`. -/
def filter4 : SearchFilter :=
  { SearchFilter.empty with min_rating := some 4 }

/-- With only `min_rating = 4` configured, `matches` is exactly the
average-at-least-4 test. -/
lemma filter4_matches (now : Int) (c : MediaContent) :
    filter4.matches now c = decide (4 ≤ c.average_rating) := by
  have h40 : ratTruthy (some (4 : ℚ)) = true := by decide
  by_cases h : c.average_rating < 4
  · simp [SearchFilter.matches, filter4, SearchFilter.empty, intTruthy, h40,
      h, not_le.mpr h]
  · simp [SearchFilter.matches, filter4, SearchFilter.empty, intTruthy, h40,
      h, not_lt.mp h]

/-- C2: `search` returns, in original insertion order, exactly the owned
records for which (query is empty OR `matches_search`) AND (filter is
absent OR `filter.matches`); with an empty query and the
`min_rating = 4.0` filter it returns exactly the records whose average
rating is at least 4. -/
theorem search_spec (lib : MediaLibrary) (now : Int) (query : String)
    (filters : Option SearchFilter) :
    lib.search now query filters =
      lib.content.filter (fun c =>
        (query == "" || c.matches_search query) &&
        (match filters with
         | some fl => fl.matches now c
         | none => true)) ∧
    SearchFilter.empty.set_rating_filter 4 = .ok filter4 ∧
    lib.search now "" (some filter4) =
      lib.content.filter (fun c => decide (4 ≤ c.average_rating)) := by
  refine ⟨?_, ?_, ?_⟩
  · rcases filters with _ | fl
    · rw [MediaLibrary.search, searchLoop_none_eq]
      simp
    · rw [MediaLibrary.search, searchLoop_some_eq]
      simp
  · have hb : ((1 : ℚ) ≤ 4 ∧ (4 : ℚ) ≤ 5) := by norm_num
    rw [SearchFilter.set_rating_filter, if_pos hb]
    rfl
  · rw [MediaLibrary.search, searchLoop_some_eq]
    simp [filter4_matches]

/-! Properties of the stable descending sort used by `get_top_rated`. -/

lemma insertDescBy_perm {α : Type} (key : α → ℚ) (x : α) (l : List α) :
    List.Perm (insertDescBy key x l) (x :: l) := by
  induction l with
  | nil => rfl
  | cons y ys ih =>
    rw [insertDescBy]
    by_cases h : key y ≤ key x
    · rw [if_pos h]
    · rw [if_neg h]
      exact (ih.cons y).trans (List.Perm.swap x y ys)

lemma pySortedDescBy_perm {α : Type} (key : α → ℚ) (l : List α) :
    List.Perm (pySortedDescBy key l) l := by
  induction l with
  | nil => rfl
  | cons a l ih => exact (insertDescBy_perm key a _).trans (ih.cons a)

lemma insertDescBy_pairwise {α : Type} (key : α → ℚ) (x : α) (l : List α)
    (h : l.Pairwise (fun a b => key b ≤ key a)) :
    (insertDescBy key x l).Pairwise (fun a b => key b ≤ key a) := by
  induction l with
  | nil => simp [insertDescBy]
  | cons y ys ih =>
    rw [insertDescBy]
    rcases List.pairwise_cons.mp h with ⟨hy, hys⟩
    by_cases hc : key y ≤ key x
    · rw [if_pos hc]
      refine List.Pairwise.cons ?_ h
      intro z hz
      rcases List.mem_cons.mp hz with rfl | hz
      · exact hc
      · exact (hy z hz).trans hc
    · rw [if_neg hc]
      refine List.Pairwise.cons ?_ (ih hys)
      intro z hz
      have hz2 : z = x ∨ z ∈ ys := by
        simpa using (insertDescBy_perm key x ys).mem_iff.mp hz
      rcases hz2 with rfl | hz2
      · exact le_of_lt (lt_of_not_le hc)
      · exact hy z hz2

lemma pySortedDescBy_pairwise {α : Type} (key : α → ℚ) (l : List α) :
    (pySortedDescBy key l).Pairwise (fun a b => key b ≤ key a) := by
  induction l with
  | nil => simp [pySortedDescBy]
  | cons a l ih => exact insertDescBy_pairwise key a _ ih

/-- Stability of the insertion step, phrased per key value: inserting `x`
does not reorder the elements of any fixed key, and `x` lands in front of
the survivors of its own key class. -/
lemma insertDescBy_filter_key {α : Type} (key : α → ℚ) (q : ℚ) (x : α)
    (l : List α) :
    (insertDescBy key x l).filter (fun z => key z == q) =
      if key x == q then x :: l.filter (fun z => key z == q)
      else l.filter (fun z => key z == q) := by
  induction l with
  | nil => cases h : (key x == q) <;> simp [insertDescBy, List.filter, h]
  | cons y ys ih =>
    rw [insertDescBy]
    by_cases hc : key y ≤ key x
    · rw [if_pos hc, List.filter_cons, List.filter_cons]
    · rw [if_neg hc]
      have hxy : key x < key y := lt_of_not_le hc
      rw [List.filter_cons]
      by_cases hyq : key y = q
      · have hxq : key x ≠ q := fun hh => ne_of_lt hxy (hh.trans hyq.symm)
        simp [hyq, hxq, ih, List.filter_cons]
      · simp [hyq, ih, List.filter_cons]

/-- Stability of the whole sort: for every key value `q`, the `q`-keyed
elements appear in the sorted list exactly as they appear in the input. -/
lemma pySortedDescBy_filter_key {α : Type} (key : α → ℚ) (q : ℚ)
    (l : List α) :
    (pySortedDescBy key l).filter (fun z => key z == q) =
      l.filter (fun z => key z == q) := by
  induction l with
  | nil => rfl
  | cons a l ih =>
    rw [pySortedDescBy, insertDescBy_filter_key, List.filter_cons]
    by_cases ha : key a = q
    · simp [ha, ih]
    · simp [ha, ih]

/-! Concrete library for the `get_top_rated(2)` example. -/

/-- Record A with one rating of 3. -/
def recA3 : MediaContent :=
  { rec0 with oid := 11, title := "A", average_rating := 3, ratings := [3] }

/-- Record B with one rating of 5. -/
def recB5 : MediaContent :=
  { rec0 with oid := 12, title := "B", average_rating := 5, ratings := [5] }

/-- Record C with one rating of 4. -/
def recC4 : MediaContent :=
  { rec0 with oid := 13, title := "C", average_rating := 4, ratings := [4] }

/-- Record D with no ratings (average 0). -/
def recD0 : MediaContent := { rec0 with oid := 14, title := "D" }

/-- The averages 3, 5 and 4 really arise from `add_rating` on fresh
records: 3/1 = 3 and so on. -/
lemma demo_records_from_ratings :
    ({ rec0 with oid := 11, title := "A" } : MediaContent).add_rating 3 =
      .ok recA3 ∧
    ({ rec0 with oid := 12, title := "B" } : MediaContent).add_rating 5 =
      .ok recB5 ∧
    ({ rec0 with oid := 13, title := "C" } : MediaContent).add_rating 4 =
      .ok recC4 := by
  refine ⟨?_, ?_, ?_⟩ <;>
    · simp [MediaContent.add_rating, rec0, recA3, recB5, recC4,
        (by norm_num : (1 : ℚ) ≤ 3), (by norm_num : (3 : ℚ) ≤ 5),
        (by norm_num : (1 : ℚ) ≤ 4), (by norm_num : (4 : ℚ) ≤ 5),
        (by norm_num : (1 : ℚ) ≤ 5), (by norm_num : (5 : ℚ) ≤ 5)]

/-- Library holding A (3.0), B (5.0), C (4.0), D (unrated), in that
insertion order. -/
def topDemoLib : MediaLibrary := {
  name := "L"
  content := [recA3, recB5, recC4, recD0]
  content_by_type := fun k =>
    if k = .movie then [recA3, recB5, recC4, recD0] else []
  created_at := 0 }

/-- C5: `get_top_rated(n)` is the `n`-prefix of a list that (a) is sorted
descending by average rating, (b) is a permutation of exactly the owned
records with a positive average, and (c) keeps every class of equal
averages in original insertion order (stability); on averages
[A:3, B:5, C:4, D:unrated], `get_top_rated 2 = [B, C]`. -/
theorem top_rated_spec (lib : MediaLibrary) (n : Nat) :
    (∃ full,
      lib.get_top_rated n = full.take n ∧
      full.Pairwise (fun a b => b.average_rating ≤ a.average_rating) ∧
      List.Perm full
        (lib.content.filter (fun c => decide (0 < c.average_rating))) ∧
      (∀ q : ℚ, full.filter (fun c => c.average_rating == q) =
        (lib.content.filter (fun c => decide (0 < c.average_rating))).filter
          (fun c => c.average_rating == q))) ∧
    topDemoLib.get_top_rated 2 = [recB5, recC4] := by
  constructor
  · exact ⟨pySortedDescBy (fun c => c.average_rating)
        (lib.content.filter (fun c => decide (0 < c.average_rating))),
      rfl,
      pySortedDescBy_pairwise _ _,
      pySortedDescBy_perm _ _,
      fun q => pySortedDescBy_filter_key _ q _⟩
  · rfl

/-! Reachable-state invariant: the kind index is the kind-filtered
subsequence of the primary collection, and owned identities are
pairwise distinct. -/

lemma countP_le_one_of_nodup_map {α β : Type} [DecidableEq β] (f : α → β)
    (l : List α) (h : (l.map f).Nodup) (b : β) :
    l.countP (fun x => f x == b) ≤ 1 := by
  induction l with
  | nil => simp
  | cons a l ih =>
    rw [List.map_cons, List.nodup_cons] at h
    rw [List.countP_cons]
    by_cases hab : f a = b
    · have h0 : l.countP (fun x => f x == b) = 0 := by
        rw [List.countP_eq_zero]
        intro x hx
        simp only [beq_iff_eq]
        intro hfx
        exact h.1 ((hab.trans hfx.symm) ▸ List.mem_map_of_mem f hx)
      simp [h0, hab]
    · have hab2 : (f a == b) = false := beq_eq_false_iff_ne.mpr hab
      simp [hab2, ih h.2]

/-- When at most one element satisfies `p`, erasing the first hit is the
same as filtering every hit out. -/
lemma eraseP_eq_filter_of_countP_le_one {α : Type} (p : α → Bool)
    (l : List α) (h : l.countP p ≤ 1) :
    l.eraseP p = l.filter (fun x => !(p x)) := by
  induction l with
  | nil => rfl
  | cons a l ih =>
    rw [List.countP_cons] at h
    cases hpa : p a
    · rw [List.eraseP_cons_of_neg (by simp [hpa]), List.filter_cons]
      simp only [hpa, if_pos] at h
      simp [hpa, ih (by omega)]
    · rw [List.eraseP_cons_of_pos hpa, List.filter_cons]
      simp only [hpa, if_pos] at h
      have h0 : l.countP p = 0 := by omega
      have hself : l.filter (fun x => !(p x)) = l := by
        rw [List.filter_eq_self]
        intro x hx
        have := List.countP_eq_zero.mp h0 x hx
        simp [this]
      simp [hpa, hself]

/-- The record `find?` returns is the first hit, so erasing by its (unique)
identity is the same as erasing the first hit of the search predicate. -/
lemma eraseP_oid_eq_eraseP_of_find? (p : MediaContent → Bool) :
    ∀ (l : List MediaContent) (c : MediaContent),
    l.find? p = some c → (l.map MediaContent.oid).Nodup →
    l.eraseP (fun x => x.oid == c.oid) = l.eraseP p := by
  intro l
  induction l with
  | nil => intro c h; simp at h
  | cons a l ih =>
    intro c hf hnd
    rw [List.find?_cons] at hf
    rw [List.map_cons, List.nodup_cons] at hnd
    cases hpa : p a
    · rw [hpa] at hf
      have hc : c ∈ l := List.mem_of_find?_eq_some hf
      have hne : (a.oid == c.oid) = false := by
        rw [beq_eq_false_iff_ne]
        intro he
        exact hnd.1 (he ▸ List.mem_map_of_mem MediaContent.oid hc)
      rw [List.eraseP_cons_of_neg (by simp [hne]),
        List.eraseP_cons_of_neg (by simp [hpa]), ih c hf hnd.2]
    · rw [hpa] at hf
      injection hf with hf
      subst hf
      rw [List.eraseP_cons_of_pos (by simp), List.eraseP_cons_of_pos hpa]

/-- The synchronization invariant plus distinctness of owned identities. -/
def libWF (lib : MediaLibrary) : Prop :=
  (∀ k, lib.content_by_type k =
    lib.content.filter (fun c => decide (c.kind = k))) ∧
  (lib.content.map MediaContent.oid).Nodup

lemma libWF_init (name : String) (now : Int) :
    libWF (MediaLibrary.init name now) :=
  ⟨fun _ => rfl, by simp [MediaLibrary.init]⟩

lemma libWF_add (lib : MediaLibrary) (c : MediaContent) (h : libWF lib) :
    libWF (lib.applyOp (.add c)) := by
  rcases h with ⟨hidx, hnd⟩
  rw [MediaLibrary.applyOp, MediaLibrary.add_content]
  cases hany : lib.content.any (fun x => x.oid == c.oid)
  · rw [if_neg (by simp [hany])]
    have hnotin : c.oid ∉ lib.content.map MediaContent.oid := by
      rw [List.any_eq_false] at hany
      intro hmem
      rcases List.mem_map.mp hmem with ⟨x, hx, he⟩
      exact absurd (by simp [he]) (hany x hx)
    constructor
    · intro k
      simp only []
      rw [List.filter_append, hidx k]
      by_cases hk : k = c.kind
      · rw [if_pos hk]
        simp [List.filter, hk]
      · rw [if_neg hk]
        have : (decide (c.kind = k)) = false :=
          decide_eq_false (fun hh => hk hh.symm)
        simp [List.filter, this]
    · simp only [List.map_append]
      rw [List.nodup_append]
      exact ⟨hnd, by simp, by simpa using hnotin⟩
  · rw [if_pos (by simp [hany])]
    exact ⟨hidx, hnd⟩

lemma libWF_remove (lib : MediaLibrary) (t : String) (h : libWF lib) :
    libWF (lib.applyOp (.remove t)) := by
  rcases h with ⟨hidx, hnd⟩
  rw [MediaLibrary.applyOp, MediaLibrary.remove_content]
  cases hf : lib.content.find? (fun c => pyLower c.title == pyLower t) with
  | none => exact ⟨hidx, hnd⟩
  | some c =>
    have hc : c ∈ lib.content := List.mem_of_find?_eq_some hf
    have hcount : lib.content.countP (fun x => x.oid == c.oid) ≤ 1 :=
      countP_le_one_of_nodup_map MediaContent.oid lib.content hnd c.oid
    have herase : lib.content.eraseP (fun x => x.oid == c.oid) =
        lib.content.filter (fun x => !(x.oid == c.oid)) :=
      eraseP_eq_filter_of_countP_le_one _ _ hcount
    constructor
    · intro k
      show (if k = c.kind
          then (lib.content_by_type k).eraseP (fun x => x.oid == c.oid)
          else lib.content_by_type k) =
        (lib.content.eraseP (fun x => x.oid == c.oid)).filter
          (fun c2 => decide (c2.kind = k))
      rw [herase]
      by_cases hk : k = c.kind
      · rw [if_pos hk, hidx k]
        have hcount2 :
            (lib.content.filter
              (fun c2 => decide (c2.kind = k))).countP
                (fun x => x.oid == c.oid) ≤ 1 := by
          rw [List.countP_filter]
          exact le_trans (List.countP_mono_left
            (fun x _ hx => (Bool.and_eq_true_iff.mp hx).1)) hcount
        rw [eraseP_eq_filter_of_countP_le_one _ _ hcount2,
          List.filter_filter, List.filter_filter]
        have hcomm : (fun x : MediaContent =>
            !(x.oid == c.oid) && decide (x.kind = k)) =
            (fun x : MediaContent =>
              decide (x.kind = k) && !(x.oid == c.oid)) := by
          funext x
          exact Bool.and_comm _ _
        rw [hcomm]
      · rw [if_neg hk, hidx k, List.filter_filter]
        refine List.filter_congr ?_
        intro x hx
        by_cases hxk : x.kind = k
        · have hxo : x.oid ≠ c.oid := by
            intro he
            have hxc : x = c := List.inj_on_of_nodup_map hnd hx hc he
            exact hk (hxc ▸ hxk : c.kind = k).symm
          simp [hxk, hxo]
        · simp [hxk]
    · show ((lib.content.eraseP
          (fun x => x.oid == c.oid)).map MediaContent.oid).Nodup
      rw [herase]
      exact List.Nodup.sublist ((List.filter_sublist _).map _) hnd

lemma libWF_applyOp (lib : MediaLibrary) (op : LibOp) (h : libWF lib) :
    libWF (lib.applyOp op) := by
  cases op with
  | add c => exact libWF_add lib c h
  | remove t => exact libWF_remove lib t h

lemma libWF_runOps (lib : MediaLibrary) (ops : List LibOp) (h : libWF lib) :
    libWF (lib.runOps ops) := by
  induction ops generalizing lib with
  | nil => exact h
  | cons op ops ih => exact ih _ (libWF_applyOp lib op h)

/-- On a library with pairwise-distinct identities, `remove_content`
erases exactly the first case-insensitive title match from the primary
collection. -/
lemma remove_content_eraseP (lib : MediaLibrary) (h : libWF lib)
    (t : String) :
    (lib.remove_content t).2.content =
      lib.content.eraseP (fun c => pyLower c.title == pyLower t) := by
  rw [MediaLibrary.remove_content]
  cases hf : lib.content.find? (fun c => pyLower c.title == pyLower t) with
  | none =>
    have : lib.content.eraseP (fun c => pyLower c.title == pyLower t) =
        lib.content :=
      List.eraseP_of_forall_not (List.find?_eq_none.mp hf)
    simp [this]
  | some c =>
    exact eraseP_oid_eq_eraseP_of_find? _ lib.content c hf h.2

/-- C7: in every reachable library state (any sequence of `add_content`
and `remove_content` from a fresh library), each kind-index entry equals
the kind-filtered subsequence of the primary ordered collection; moreover
`remove_content` deletes exactly the first case-insensitive title match
from the primary collection, and the index equality still holds right
after the removal, so the match leaves its kind index too. -/
theorem kind_index_sync (name : String) (now : Int) (ops : List LibOp) :
    (∀ k, ((MediaLibrary.init name now).runOps ops).content_by_type k =
      ((MediaLibrary.init name now).runOps ops).content.filter
        (fun c => decide (c.kind = k))) ∧
    (∀ t, (((MediaLibrary.init name now).runOps ops).remove_content t).2.content =
      ((MediaLibrary.init name now).runOps ops).content.eraseP
        (fun c => pyLower c.title == pyLower t)) ∧
    (∀ t k,
      (((MediaLibrary.init name now).runOps ops).remove_content t).2.content_by_type k =
      (((MediaLibrary.init name now).runOps ops).remove_content t).2.content.filter
        (fun c => decide (c.kind = k))) := by
  have hwf : libWF ((MediaLibrary.init name now).runOps ops) :=
    libWF_runOps _ ops (libWF_init name now)
  refine ⟨hwf.1, fun t => remove_content_eraseP _ hwf t, fun t k => ?_⟩
  exact (libWF_remove _ t hwf).1 k

end MediaLib
